import Mathlib

/-!
Verification of the safety-risk classification pipeline.

The development shallowly embeds the pipeline stages of the repository:
the Record Normalizer (coordinate coercion and row dropping), the Spatial
Aggregator and Labeler (group-by-location counts and the median-based Risk
label), the Leak-Safe Splitter (label filtering and two-stage partitioning),
the Feature Engine (engineer_features), and the Artifact Store round trip.

Numeric columns are modelled as rationals; a possibly-missing value is an
Option.  Time-derived columns (Hour, DayOfWeek) are carried through the
data model only where a claim needs them; no claim mentions them, so the
datetime parsing itself is not modelled.
-/

namespace SafetyRisk

/-- A raw incident record as delivered by the external feed.  The raw
latitude and longitude fields are strings or nulls; the pipeline's first
act on them is pandas to_numeric(errors="coerce"), so we model each raw
coordinate by its coercion result: some q when the field parses to the
number q, none when it is missing or unparseable. -/
structure RawIncidentRecord where
  date : String
  latitude : Option ℚ
  longitude : Option ℚ
  primary_type : String
deriving DecidableEq

/-- A normalized incident: both coordinates present as numbers, plus the
is-violent flag computed from the fixed category set. -/
structure NormalizedIncident where
  date : String
  latitude : ℚ
  longitude : ℚ
  primary_type : String
  IsViolent : Bool
deriving DecidableEq

/-- The fixed violent-category set (source: violent_crimes list in the ETL
notebook). -/
def violent_crimes : List String :=
  ["HOMICIDE", "ASSAULT", "BATTERY", "ROBBERY", "CRIM SEXUAL ASSAULT"]

/-- The Record Normalizer.  Source order of operations: coerce latitude and
longitude with to_numeric(errors="coerce"), dropna on the two coordinate
columns, then IsViolent := primary_type isin violent_crimes. -/
def normalize (l : List RawIncidentRecord) : List NormalizedIncident :=
  (l.filter fun r => r.latitude.isSome && r.longitude.isSome).map fun r =>
    { date := r.date
      latitude := r.latitude.getD 0
      longitude := r.longitude.getD 0
      primary_type := r.primary_type
      IsViolent := violent_crimes.contains r.primary_type }

/-- One row per distinct (latitude, longitude) pair. -/
structure LocationAggregate where
  latitude : ℚ
  longitude : ℚ
  CrimeCount : ℕ
  ViolentCount : ℕ
deriving DecidableEq

/-- A LocationAggregate together with its Risk label (astype(int): 0 or 1). -/
structure LabeledAggregate where
  latitude : ℚ
  longitude : ℚ
  CrimeCount : ℕ
  ViolentCount : ℕ
  Risk : ℕ
deriving DecidableEq

/-- The Spatial Aggregator.  Source: groupby(["latitude", "longitude"]).agg(
CrimeCount=("primary_type", "count"), ViolentCount=("IsViolent", "sum")).
Group keys are listed in order of first appearance (pandas sorts them; no
claim depends on row order). -/
def location_counts (l : List NormalizedIncident) : List LocationAggregate :=
  ((l.map fun i => (i.latitude, i.longitude)).dedup).map fun k =>
    let grp := l.filter fun i => (i.latitude, i.longitude) = k
    { latitude := k.1
      longitude := k.2
      CrimeCount := grp.length
      ViolentCount := (grp.filter fun i => i.IsViolent).length }

/-- pandas Series.median on a list of rationals: the middle order statistic
for odd length, the mean of the two middle order statistics for even length.
pandas yields NaN on an empty series; here the value is 0, and every claim
about the median assumes a nonempty population. -/
def median (l : List ℚ) : ℚ :=
  let s := List.insertionSort (· ≤ ·) l
  let n := s.length
  if n % 2 = 1 then s.getD (n / 2) 0
  else (s.getD (n / 2 - 1) 0 + s.getD (n / 2) 0) / 2

/-- The CrimeCount column of an aggregate list, as rationals. -/
def crimeCounts (l : List LocationAggregate) : List ℚ :=
  l.map fun a => (a.CrimeCount : ℚ)

/-- The Labeler.  Source: median_count = location_counts["CrimeCount"].median();
Risk = (CrimeCount > median_count).astype(int). -/
def labelAggregates (l : List LocationAggregate) : List LabeledAggregate :=
  let median_count := median (crimeCounts l)
  l.map fun a =>
    { latitude := a.latitude
      longitude := a.longitude
      CrimeCount := a.CrimeCount
      ViolentCount := a.ViolentCount
      Risk := if median_count < (a.CrimeCount : ℚ) then 1 else 0 }

/-- C1: for every non-empty list of location aggregates, the labeler gives a
row Risk = 1 exactly when its CrimeCount strictly exceeds the median of
CrimeCount over all rows, and gives Risk = 0 when CrimeCount equals the
median. -/
theorem risk_iff_above_median (l : List LocationAggregate) (hne : l ≠ [])
    (r : LabeledAggregate) (hr : r ∈ labelAggregates l) :
    (r.Risk = 1 ↔ median (crimeCounts l) < (r.CrimeCount : ℚ)) ∧
      ((r.CrimeCount : ℚ) = median (crimeCounts l) → r.Risk = 0) := by
  simp only [labelAggregates, List.mem_map] at hr
  obtain ⟨a, _, rfl⟩ := hr
  refine ⟨?_, ?_⟩
  · by_cases hc : median (crimeCounts l) < (a.CrimeCount : ℚ) <;> simp [hc]
  · intro heq
    simp [heq.symm]

/-- Witness for C1 on a concrete three-row aggregate list: counts [1, 1, 3]
have median 1, so the count-3 row is labeled 1 and strictly exceeds the
median. -/
theorem risk_iff_above_median_witness :
    ((⟨1, 1, 3, 1, 1⟩ : LabeledAggregate).Risk = 1 ↔
        median (crimeCounts [⟨0, 0, 1, 0⟩, ⟨2, 2, 1, 0⟩, ⟨1, 1, 3, 1⟩]) <
          ((⟨1, 1, 3, 1, 1⟩ : LabeledAggregate).CrimeCount : ℚ)) ∧
      (((⟨1, 1, 3, 1, 1⟩ : LabeledAggregate).CrimeCount : ℚ) =
          median (crimeCounts [⟨0, 0, 1, 0⟩, ⟨2, 2, 1, 0⟩, ⟨1, 1, 3, 1⟩]) →
        (⟨1, 1, 3, 1, 1⟩ : LabeledAggregate).Risk = 0) :=
  risk_iff_above_median [⟨0, 0, 1, 0⟩, ⟨2, 2, 1, 0⟩, ⟨1, 1, 3, 1⟩] (by decide)
    ⟨1, 1, 3, 1, 1⟩ (by decide)

/-- C9: every row produced by the aggregator counts at least one incident,
and its violent count — the sum of a 0/1 indicator over the same group —
is at most its crime count. -/
theorem location_counts_invariant (l : List NormalizedIncident)
    (a : LocationAggregate) (ha : a ∈ location_counts l) :
    1 ≤ a.CrimeCount ∧ a.ViolentCount ≤ a.CrimeCount := by
  simp only [location_counts, List.mem_map] at ha
  obtain ⟨k, hk, rfl⟩ := ha
  refine ⟨?_, List.length_filter_le _ _⟩
  rw [List.mem_dedup, List.mem_map] at hk
  obtain ⟨i, hi, hik⟩ := hk
  have hmem : i ∈ l.filter fun i => (i.latitude, i.longitude) = k :=
    List.mem_filter.mpr ⟨hi, by simp [hik]⟩
  exact List.length_pos.mpr (List.ne_nil_of_mem hmem)

/-- Witness for C9: a single incident yields one aggregate row with
CrimeCount 1 and ViolentCount 0. -/
theorem location_counts_invariant_witness :
    1 ≤ (⟨1, 2, 1, 0⟩ : LocationAggregate).CrimeCount ∧
      (⟨1, 2, 1, 0⟩ : LocationAggregate).ViolentCount ≤
        (⟨1, 2, 1, 0⟩ : LocationAggregate).CrimeCount :=
  location_counts_invariant [⟨"d1", 1, 2, "THEFT", false⟩] ⟨1, 2, 1, 0⟩
    (by decide)

/-- Deduplicating a nonempty list whose elements are all equal to k yields
the one-element list [k]. -/
theorem dedup_of_all_eq {α : Type*} [DecidableEq α] (xs : List α) (k : α)
    (hne : xs ≠ []) (h : ∀ x ∈ xs, x = k) : xs.dedup = [k] := by
  induction xs with
  | nil => exact absurd rfl hne
  | cons a as ih =>
    have hak : a = k := h a (List.mem_cons_self a as)
    rcases as with _ | ⟨b, bs⟩
    · simp [hak]
    · have hbk : b = k := h b (by simp)
      have hmem : a ∈ b :: bs := by
        rw [hak, ← hbk]
        exact List.mem_cons_self b bs
      rw [List.dedup_cons_of_mem hmem]
      exact ih (by simp) fun x hx => h x (List.mem_cons_of_mem a hx)

/-- The median of a one-element list is its element. -/
theorem median_singleton (x : ℚ) : median [x] = x := by
  simp [median]

/-- C7: on an input whose incidents all carry one and the same coordinate
pair, the aggregator produces rows (in fact exactly one) whose CrimeCount
equals the labeler's median, so every labeled row gets Risk = 0. -/
theorem single_location_all_low_risk (l : List NormalizedIncident)
    (k : ℚ × ℚ) (hne : l ≠ []) (hall : ∀ i ∈ l, (i.latitude, i.longitude) = k) :
    (∀ a ∈ location_counts l,
        median (crimeCounts (location_counts l)) = (a.CrimeCount : ℚ)) ∧
      ∀ r ∈ labelAggregates (location_counts l), r.Risk = 0 := by
  have hkeys : (l.map fun i => (i.latitude, i.longitude)).dedup = [k] := by
    refine dedup_of_all_eq _ k (by simpa using hne) ?_
    intro x hx
    obtain ⟨i, hi, rfl⟩ := List.mem_map.mp hx
    exact hall i hi
  have hfilter : (l.filter fun i => (i.latitude, i.longitude) = k) = l :=
    List.filter_eq_self.mpr fun i hi => by simp [hall i hi]
  have hlc : location_counts l =
      [{ latitude := k.1, longitude := k.2, CrimeCount := l.length,
         ViolentCount := (l.filter fun i => i.IsViolent).length }] := by
    simp only [location_counts, hkeys, List.map_cons, List.map_nil]
    rw [hfilter]
  rw [hlc]
  constructor
  · intro a ha
    rw [List.mem_singleton] at ha
    subst ha
    simp [crimeCounts, median_singleton]
  · intro r hr
    simp only [labelAggregates, crimeCounts, List.map_cons, List.map_nil,
      median_singleton, List.mem_cons, List.not_mem_nil, or_false] at hr
    subst hr
    simp

/-- Witness for C7: two incidents at the same coordinate pair produce one
aggregate row whose count is the median, labeled Risk = 0. -/
theorem single_location_all_low_risk_witness :
    median (crimeCounts (location_counts
        [⟨"d1", 1, 2, "THEFT", false⟩, ⟨"d2", 1, 2, "BATTERY", true⟩])) =
      ((⟨1, 2, 2, 1⟩ : LocationAggregate).CrimeCount : ℚ) ∧
      (⟨1, 2, 2, 1, 0⟩ : LabeledAggregate).Risk = 0 :=
  ⟨(single_location_all_low_risk
      [⟨"d1", 1, 2, "THEFT", false⟩, ⟨"d2", 1, 2, "BATTERY", true⟩]
      (1, 2) (by decide) (by decide)).1 ⟨1, 2, 2, 1⟩ (by decide),
   (single_location_all_low_risk
      [⟨"d1", 1, 2, "THEFT", false⟩, ⟨"d2", 1, 2, "BATTERY", true⟩]
      (1, 2) (by decide) (by decide)).2 ⟨1, 2, 2, 1, 0⟩ (by decide)⟩

/-- C8: the Normalizer drops every record with an unparseable coordinate and
never invents one: each output row's coordinates are the parsed coordinates
of an input record, each fully-parseable input record contributes its row,
the output size is exactly the number of fully-parseable records, and an
empty input yields an empty output. -/
theorem normalize_drops_unparsable (l : List RawIncidentRecord) :
    (∀ n ∈ normalize l,
        ∃ r ∈ l, r.latitude = some n.latitude ∧ r.longitude = some n.longitude) ∧
      (normalize l).length =
        (l.filter fun r => r.latitude.isSome && r.longitude.isSome).length ∧
      (∀ r ∈ l, r.latitude.isSome → r.longitude.isSome →
        (⟨r.date, r.latitude.getD 0, r.longitude.getD 0, r.primary_type,
            violent_crimes.contains r.primary_type⟩ : NormalizedIncident) ∈
          normalize l) ∧
      normalize [] = [] := by
  refine ⟨?_, by simp [normalize], ?_, rfl⟩
  · intro n hn
    simp only [normalize, List.mem_map, List.mem_filter] at hn
    obtain ⟨r, ⟨hr, hsome⟩, rfl⟩ := hn
    obtain ⟨hlat, hlon⟩ := Bool.and_eq_true_iff.mp hsome
    obtain ⟨a, ha⟩ := Option.isSome_iff_exists.mp hlat
    obtain ⟨b, hb⟩ := Option.isSome_iff_exists.mp hlon
    exact ⟨r, hr, by simp [ha, hb]⟩
  · intro r hr h1 h2
    simp only [normalize, List.mem_map]
    exact ⟨r, List.mem_filter.mpr ⟨hr, by simp [h1, h2]⟩, rfl⟩

/-- Witness for C8 on a two-record input, one record with an unparseable
latitude: the parseable record survives with its own coordinates, the
unparseable one is dropped (output length 1), and the empty input maps to
the empty output. -/
theorem normalize_drops_unparsable_witness :
    (∃ r ∈ [(⟨"d", some 1, some 2, "THEFT"⟩ : RawIncidentRecord),
        ⟨"e", none, some 3, "ARSON"⟩],
      r.latitude = some (1 : ℚ) ∧ r.longitude = some (2 : ℚ)) ∧
      (normalize [(⟨"d", some 1, some 2, "THEFT"⟩ : RawIncidentRecord),
          ⟨"e", none, some 3, "ARSON"⟩]).length =
        ([(⟨"d", some 1, some 2, "THEFT"⟩ : RawIncidentRecord),
            ⟨"e", none, some 3, "ARSON"⟩].filter fun r =>
          r.latitude.isSome && r.longitude.isSome).length ∧
      (⟨"d", 1, 2, "THEFT", false⟩ : NormalizedIncident) ∈
        normalize [(⟨"d", some 1, some 2, "THEFT"⟩ : RawIncidentRecord),
          ⟨"e", none, some 3, "ARSON"⟩] ∧
      normalize [] = [] := by
  obtain ⟨h1, h2, h3, h4⟩ := normalize_drops_unparsable
    [(⟨"d", some 1, some 2, "THEFT"⟩ : RawIncidentRecord),
      ⟨"e", none, some 3, "ARSON"⟩]
  exact ⟨h1 ⟨"d", 1, 2, "THEFT", false⟩ (by decide), h2,
    h3 ⟨"d", some 1, some 2, "THEFT"⟩ (by decide) (by decide) (by decide), h4⟩

/-- A labeled aggregate row as the splitter sees it: four feature columns
and a Risk label that may be missing (NaN). -/
structure SplitRow where
  latitude : ℚ
  longitude : ℚ
  CrimeCount : ℚ
  ViolentCount : ℚ
  Risk : Option ℚ
deriving DecidableEq

/-- sklearn train_test_split, abstracted over the seeded pseudo-random
assignment: sel says, position by position, whether a row of the input goes
to the first returned part.  The 70/30 ratio, stratification and the fixed
seed pick one particular sel; the partition claims hold for every sel. -/
def train_test_split {α : Type*} : List Bool → List α → List α × List α
  | _, [] => ([], [])
  | [], x :: xs => ([], x :: xs)
  | b :: bs, x :: xs =>
    let p := train_test_split bs xs
    if b then (x :: p.1, p.2) else (p.1, x :: p.2)

/-- The two returned parts of train_test_split are, together, a permutation
of the input. -/
theorem train_test_split_perm {α : Type*} (bs : List Bool) (l : List α) :
    ((train_test_split bs l).1 ++ (train_test_split bs l).2).Perm l := by
  induction bs generalizing l with
  | nil => cases l <;> simp [train_test_split]
  | cons b bs ih =>
    cases l with
    | nil => simp [train_test_split]
    | cons x xs =>
      by_cases hb : b
      · subst hb
        simpa [train_test_split] using (ih xs).cons x
      · have hb2 : b = false := by simpa using hb
        subst hb2
        simpa [train_test_split] using List.perm_middle.trans ((ih xs).cons x)

/-- The Leak-Safe Splitter (source: Step 2 and Step 3 of the feature
engineering notebook): keep only rows whose Risk is present, split the
result into train and a temporary pool, then split the pool into validation
and test. -/
def splitDataset (sel1 sel2 : List Bool) (rows : List SplitRow) :
    List SplitRow × List SplitRow × List SplitRow :=
  let filtered := rows.filter fun r => r.Risk.isSome
  let p1 := train_test_split sel1 filtered
  let p2 := train_test_split sel2 p1.2
  (p1.1, p2.1, p2.2)

/-- C3: for every input and every pseudo-random assignment, the three
partitions together are a permutation of the label-filtered input (so no
row is duplicated or lost), every row of any partition carries a present
label and comes from the input, and when the filtered input has no
duplicate rows the three partitions are pairwise disjoint. -/
theorem splitDataset_partitions (sel1 sel2 : List Bool) (rows : List SplitRow) :
    ((splitDataset sel1 sel2 rows).1 ++
        ((splitDataset sel1 sel2 rows).2.1 ++ (splitDataset sel1 sel2 rows).2.2)).Perm
      (rows.filter fun r => r.Risk.isSome) ∧
      (∀ r, r ∈ (splitDataset sel1 sel2 rows).1 ∨
          r ∈ (splitDataset sel1 sel2 rows).2.1 ∨
          r ∈ (splitDataset sel1 sel2 rows).2.2 →
        r.Risk.isSome ∧ r ∈ rows) ∧
      ((rows.filter fun r => r.Risk.isSome).Nodup →
        (splitDataset sel1 sel2 rows).1.Disjoint (splitDataset sel1 sel2 rows).2.1 ∧
          (splitDataset sel1 sel2 rows).1.Disjoint (splitDataset sel1 sel2 rows).2.2 ∧
          (splitDataset sel1 sel2 rows).2.1.Disjoint (splitDataset sel1 sel2 rows).2.2) := by
  have hperm :
      ((splitDataset sel1 sel2 rows).1 ++
          ((splitDataset sel1 sel2 rows).2.1 ++ (splitDataset sel1 sel2 rows).2.2)).Perm
        (rows.filter fun r => r.Risk.isSome) := by
    have h2 := train_test_split_perm sel2
      (train_test_split sel1 (rows.filter fun r => r.Risk.isSome)).2
    have h1 := train_test_split_perm sel1 (rows.filter fun r => r.Risk.isSome)
    exact ((h2.append_left _).trans h1)
  refine ⟨hperm, ?_, ?_⟩
  · intro r hr
    have hmem : r ∈ (splitDataset sel1 sel2 rows).1 ++
        ((splitDataset sel1 sel2 rows).2.1 ++ (splitDataset sel1 sel2 rows).2.2) := by
      rcases hr with h | h | h <;> simp [h]
    have := hperm.mem_iff.mp hmem
    rw [List.mem_filter] at this
    exact ⟨this.2, this.1⟩
  · intro hnd
    have : ((splitDataset sel1 sel2 rows).1 ++
        ((splitDataset sel1 sel2 rows).2.1 ++ (splitDataset sel1 sel2 rows).2.2)).Nodup :=
      hperm.symm.nodup hnd
    rw [List.nodup_append] at this
    obtain ⟨_, hvw, hdis⟩ := this
    rw [List.nodup_append] at hvw
    rw [List.disjoint_append_right] at hdis
    exact ⟨hdis.1, hdis.2, hvw.2.2⟩

/-- Witness for C3 on a three-row input whose third row has a missing label,
with assignments sending the first row to train and the second to
validation: the partitions permute the filtered input, the train row is
labeled and from the input, and the partitions are pairwise disjoint. -/
theorem splitDataset_partitions_witness :
    ((splitDataset [true, false] [true]
          [⟨1, 2, 3, 1, some 0⟩, ⟨4, 5, 6, 2, some 1⟩, ⟨7, 8, 9, 3, none⟩]).1 ++
        ((splitDataset [true, false] [true]
            [⟨1, 2, 3, 1, some 0⟩, ⟨4, 5, 6, 2, some 1⟩, ⟨7, 8, 9, 3, none⟩]).2.1 ++
          (splitDataset [true, false] [true]
            [⟨1, 2, 3, 1, some 0⟩, ⟨4, 5, 6, 2, some 1⟩, ⟨7, 8, 9, 3, none⟩]).2.2)).Perm
      ([⟨1, 2, 3, 1, some 0⟩, ⟨4, 5, 6, 2, some 1⟩,
          ⟨7, 8, 9, 3, none⟩].filter fun r => r.Risk.isSome) ∧
      ((⟨1, 2, 3, 1, some 0⟩ : SplitRow).Risk.isSome ∧
        (⟨1, 2, 3, 1, some 0⟩ : SplitRow) ∈
          [(⟨1, 2, 3, 1, some 0⟩ : SplitRow), ⟨4, 5, 6, 2, some 1⟩,
            ⟨7, 8, 9, 3, none⟩]) ∧
      ((splitDataset [true, false] [true]
            [⟨1, 2, 3, 1, some 0⟩, ⟨4, 5, 6, 2, some 1⟩, ⟨7, 8, 9, 3, none⟩]).1.Disjoint
          (splitDataset [true, false] [true]
            [⟨1, 2, 3, 1, some 0⟩, ⟨4, 5, 6, 2, some 1⟩, ⟨7, 8, 9, 3, none⟩]).2.1 ∧
        (splitDataset [true, false] [true]
            [⟨1, 2, 3, 1, some 0⟩, ⟨4, 5, 6, 2, some 1⟩, ⟨7, 8, 9, 3, none⟩]).1.Disjoint
          (splitDataset [true, false] [true]
            [⟨1, 2, 3, 1, some 0⟩, ⟨4, 5, 6, 2, some 1⟩, ⟨7, 8, 9, 3, none⟩]).2.2 ∧
        (splitDataset [true, false] [true]
            [⟨1, 2, 3, 1, some 0⟩, ⟨4, 5, 6, 2, some 1⟩, ⟨7, 8, 9, 3, none⟩]).2.1.Disjoint
          (splitDataset [true, false] [true]
            [⟨1, 2, 3, 1, some 0⟩, ⟨4, 5, 6, 2, some 1⟩, ⟨7, 8, 9, 3, none⟩]).2.2) := by
  obtain ⟨h1, h2, h3⟩ := splitDataset_partitions [true, false] [true]
    [⟨1, 2, 3, 1, some 0⟩, ⟨4, 5, 6, 2, some 1⟩, ⟨7, 8, 9, 3, none⟩]
  exact ⟨h1, h2 ⟨1, 2, 3, 1, some 0⟩ (Or.inl (by decide)), h3 (by decide)⟩

/-- A row as the Feature Engine sees it: the four input columns read from
the split CSVs (each possibly NaN, modelled as none), and the three derived
columns, absent (none) until engineer_features writes them. -/
structure FeatureRow where
  latitude : Option ℚ
  longitude : Option ℚ
  CrimeCount : Option ℚ
  ViolentCount : Option ℚ
  CrimeDensity : Option ℚ
  ViolentRatio : Option ℚ
  DistanceFromCenter : Option ℝ

/-- Element-wise pandas product on possibly-NaN entries: NaN absorbs. -/
def optMul : Option ℚ → Option ℚ → Option ℚ
  | some a, some b => some (a * b)
  | _, _ => none

/-- Element-wise pandas quotient on possibly-NaN entries: NaN absorbs. -/
def optDiv : Option ℚ → Option ℚ → Option ℚ
  | some a, some b => some (a / b)
  | _, _ => none

/-- Element-wise pandas abs on a possibly-NaN entry. -/
def optAbs : Option ℚ → Option ℚ
  | some a => some |a|
  | none => none

/-- Series.replace(0, 1) on one entry: the exact value 0 becomes 1; any
other value, NaN included, passes through. -/
def replace0With1 : Option ℚ → Option ℚ
  | some a => some (if a = 0 then 1 else a)
  | none => none

/-- Series.fillna(v) on one entry. -/
def fillna (v : ℚ) : Option ℚ → ℚ
  | some a => a
  | none => v

/-- Chicago city center latitude, the fixed reference point. -/
def city_center_lat : ℚ := 41.8781

/-- Chicago city center longitude, the fixed reference point. -/
def city_center_lon : ℚ := -87.6298

/-- The Feature Engine (source: engineer_features in the feature
engineering notebook).  CrimeDensity = CrimeCount / |latitude * longitude|
with zero denominators replaced by 1 and the result NaN-filled with 0;
ViolentRatio = ViolentCount / CrimeCount with zero CrimeCount replaced by 1
and the result NaN-filled with 0; DistanceFromCenter = Euclidean distance
from the city center with missing coordinates NaN-filled by the center
itself.  np.sqrt is modelled by Real.sqrt. -/
noncomputable def engineer_features (r : FeatureRow) : FeatureRow :=
  let denominator := optAbs (optMul r.latitude r.longitude)
  let crimeDensity := fillna 0 (optDiv r.CrimeCount (replace0With1 denominator))
  let violentRatio := fillna 0 (optDiv r.ViolentCount (replace0With1 r.CrimeCount))
  let distance := Real.sqrt
    (((fillna city_center_lat r.latitude - city_center_lat) ^ 2 +
        (fillna city_center_lon r.longitude - city_center_lon) ^ 2 : ℚ) : ℝ)
  { r with
    CrimeDensity := some crimeDensity
    ViolentRatio := some violentRatio
    DistanceFromCenter := some distance }

/-- C5: the Feature Engine is idempotent — engineering an already
engineered row recomputes the same three derived values from the unchanged
input columns, so the second application is the identity on the first
application's output (every pre-existing field included). -/
theorem engineer_features_idempotent (r : FeatureRow) :
    engineer_features (engineer_features r) = engineer_features r := rfl

/-- C10: engineer_features writes exactly the three derived columns — the
four input columns come through unchanged, and CrimeDensity, ViolentRatio
and DistanceFromCenter are all present afterwards. -/
theorem engineer_features_adds_exactly_three (r : FeatureRow) :
    (engineer_features r).latitude = r.latitude ∧
      (engineer_features r).longitude = r.longitude ∧
      (engineer_features r).CrimeCount = r.CrimeCount ∧
      (engineer_features r).ViolentCount = r.ViolentCount ∧
      (engineer_features r).CrimeDensity.isSome = true ∧
      (engineer_features r).ViolentRatio.isSome = true ∧
      (engineer_features r).DistanceFromCenter.isSome = true :=
  ⟨rfl, rfl, rfl, rfl, rfl, rfl, rfl⟩

/-- Counterexample to C2 as stated: on the row with latitude 0, longitude 1,
CrimeCount 5, the coordinate product is 0, yet CrimeDensity is 5, not 0 —
the code replaces the zero denominator by 1 and divides the unchanged
CrimeCount by it. -/
theorem crime_density_counterexample :
    (0 : ℚ) * 1 = 0 ∧
      (engineer_features
          ⟨some 0, some 1, some 5, some 2, none, none, none⟩).CrimeDensity =
        some 5 ∧
      some (5 : ℚ) ≠ some (0 : ℚ) := by
  refine ⟨by norm_num, ?_, by simp⟩
  simp [engineer_features, optMul, optAbs, optDiv, replace0With1, fillna]

/-- C2 amended: CrimeDensity is always a defined rational (never NaN); it is
0 whenever CrimeCount is 0; and when both coordinates are present with
product 0 the denominator is replaced by 1, so CrimeDensity equals the
row's CrimeCount rather than 0. -/
theorem crime_density_amended (r : FeatureRow) :
    (∃ q, (engineer_features r).CrimeDensity = some q) ∧
      (r.CrimeCount = some 0 → (engineer_features r).CrimeDensity = some 0) ∧
      (∀ la lo c, r.latitude = some la → r.longitude = some lo → la * lo = 0 →
        r.CrimeCount = some c → (engineer_features r).CrimeDensity = some c) := by
  refine ⟨⟨_, rfl⟩, ?_, ?_⟩
  · intro h0
    rcases hla : r.latitude with _ | la <;> rcases hlo : r.longitude with _ | lo <;>
      simp [engineer_features, optMul, optAbs, optDiv, replace0With1, fillna,
        hla, hlo, h0]
  · intro la lo c hla hlo hprod hc
    have habs : |la * lo| = 0 := abs_eq_zero.mpr hprod
    simp [engineer_features, optMul, optAbs, optDiv, replace0With1, fillna,
      hla, hlo, hc, habs]

/-- Witness for the amended C2: a row with CrimeCount 0 gets CrimeDensity 0,
and a row with coordinate product 0 and CrimeCount 5 gets CrimeDensity 5. -/
theorem crime_density_amended_witness :
    (engineer_features
        (⟨some 2, some 3, some 0, some 0, none, none, none⟩ : FeatureRow)).CrimeDensity =
      some 0 ∧
      (engineer_features
          (⟨some 0, some 1, some 5, some 2, none, none, none⟩ : FeatureRow)).CrimeDensity =
        some 5 :=
  ⟨(crime_density_amended
      ⟨some 2, some 3, some 0, some 0, none, none, none⟩).2.1 (by decide),
   (crime_density_amended
      ⟨some 0, some 1, some 5, some 2, none, none, none⟩).2.2 0 1 5
      (by decide) (by decide) (by simp) (by decide)⟩

/-- Counterexample to C6 as stated: on the row with CrimeCount 0 and
ViolentCount 1, ViolentRatio is 1, not 0 — the code replaces the zero
CrimeCount by 1 and divides the unchanged ViolentCount by it. -/
theorem violent_ratio_counterexample :
    (engineer_features
        (⟨some 1, some 1, some 0, some 1, none, none, none⟩ : FeatureRow)).CrimeCount =
      some 0 ∧
      (engineer_features
          (⟨some 1, some 1, some 0, some 1, none, none, none⟩ : FeatureRow)).ViolentRatio =
        some 1 ∧
      some (1 : ℚ) ≠ some (0 : ℚ) := by
  refine ⟨rfl, ?_, by simp⟩
  simp [engineer_features, optDiv, replace0With1, fillna]

/-- C6 amended: when CrimeCount is 0 the denominator is replaced by 1, so
ViolentRatio equals the row's ViolentCount; in particular it is 0 exactly
when ViolentCount is also 0 — which holds for every aggregator-produced
row, where ViolentCount never exceeds CrimeCount.  ViolentRatio is always a
defined rational (never NaN). -/
theorem violent_ratio_amended (r : FeatureRow) :
    (∀ v, r.CrimeCount = some 0 → r.ViolentCount = some v →
        (engineer_features r).ViolentRatio = some v) ∧
      (r.CrimeCount = some 0 → r.ViolentCount = some 0 →
        (engineer_features r).ViolentRatio = some 0) ∧
      ∃ q, (engineer_features r).ViolentRatio = some q := by
  have key : ∀ v, r.CrimeCount = some 0 → r.ViolentCount = some v →
      (engineer_features r).ViolentRatio = some v := by
    intro v hc hv
    simp [engineer_features, optDiv, replace0With1, fillna, hc, hv]
  exact ⟨key, fun hc hv => key 0 hc hv, _, rfl⟩

/-- Witness for the amended C6: a row with CrimeCount 0 and ViolentCount 0
gets ViolentRatio 0; one with CrimeCount 0 and ViolentCount 1 gets
ViolentRatio 1. -/
theorem violent_ratio_amended_witness :
    (engineer_features
        (⟨some 1, some 1, some 0, some 0, none, none, none⟩ : FeatureRow)).ViolentRatio =
      some 0 ∧
      (engineer_features
          (⟨some 1, some 1, some 0, some 1, none, none, none⟩ : FeatureRow)).ViolentRatio =
        some 1 :=
  ⟨(violent_ratio_amended
      ⟨some 1, some 1, some 0, some 0, none, none, none⟩).2.1 (by decide) (by decide),
   (violent_ratio_amended
      ⟨some 1, some 1, some 0, some 1, none, none, none⟩).1 1 (by decide) (by decide)⟩

/-- Modelled from the spec: the fitted Inference Pipeline artifact.  The
pipeline object, sklearn fitting and the XGBoost classifier are library
code not present in the repository; per the spec the fitted pipeline owns
its learned parameters — the imputer fill value, the scaler means and
scales, and the classifier ensemble weights — and predict is a pure
function of those parameters and the input row. -/
structure FittedPipeline where
  fill_value : ℚ
  means : List ℚ
  scales : List ℚ
  weights : List ℚ
deriving DecidableEq

/-- Modelled from the spec: the imputer stage fills each remaining missing
value with the learned constant. -/
def imputeRow (fill : ℚ) (x : List (Option ℚ)) : List ℚ :=
  x.map (fillna fill)

/-- Modelled from the spec: the standardizer subtracts the learned mean and
divides by the learned scale, feature by feature. -/
def scaleRow (means scales xs : List ℚ) : List ℚ :=
  (xs.zip (means.zip scales)).map fun p => (p.1 - p.2.1) / p.2.2

/-- Modelled from the spec: the classifier reduces the scaled features to a
score through its learned weights. -/
def classifierScore (ws xs : List ℚ) : ℚ :=
  ((ws.zip xs).map fun p => p.1 * p.2).sum

/-- Modelled from the spec: predict applies the three fitted sub-transforms
in their fixed order — impute, scale, classify — and thresholds the score
into a 0/1 label.  It reads the learned state and nothing else. -/
def predict (p : FittedPipeline) (x : List (Option ℚ)) : ℕ :=
  if 0 < classifierScore p.weights
      (scaleRow p.means p.scales (imputeRow p.fill_value x)) then 1 else 0

/-- Modelled from the spec: Artifact Store save (joblib.dump in the source)
serializes the fitted pipeline into one self-contained flat unit, the
learned parameter lists separated by markers. -/
def save (p : FittedPipeline) : List (Option ℚ) :=
  some p.fill_value ::
    (p.means.map some ++ [none] ++
      (p.scales.map some ++ [none] ++ (p.weights.map some ++ [none])))

/-- Reads one marker-terminated segment of a serialized unit; fails on a
stream with no terminator. -/
def takeSegment : List (Option ℚ) → Option (List ℚ × List (Option ℚ))
  | [] => none
  | none :: rest => some ([], rest)
  | some q :: rest =>
    match takeSegment rest with
    | some (seg, rest2) => some (q :: seg, rest2)
    | none => none

/-- Modelled from the spec: Artifact Store load reconstructs the pipeline
from the serialized unit, with no retraining; a corrupt or trailing-garbage
artifact fails (none) rather than yielding a partially initialized
pipeline. -/
def load (a : List (Option ℚ)) : Option FittedPipeline :=
  match a with
  | some fv :: rest =>
    match takeSegment rest with
    | some (ms, rest1) =>
      match takeSegment rest1 with
      | some (ss, rest2) =>
        match takeSegment rest2 with
        | some (ws, rest3) => if rest3 = [] then some ⟨fv, ms, ss, ws⟩ else none
        | none => none
      | none => none
    | none => none
  | _ => none

/-- Reading a segment from an encoded list followed by a marker recovers
exactly that list and the remainder of the stream. -/
theorem takeSegment_append (l : List ℚ) (rest : List (Option ℚ)) :
    takeSegment (l.map some ++ (none :: rest)) = some (l, rest) := by
  induction l with
  | nil => rfl
  | cons a as ih => simp [takeSegment, ih]

/-- C4: saving a fitted pipeline and loading it back reconstructs the very
same pipeline — load after save succeeds and yields an object whose predict
agrees with the original's on every input, with no retraining. -/
theorem save_load_roundtrip (p : FittedPipeline) :
    load (save p) = some p ∧
      ∀ x, (load (save p)).map (fun q => predict q x) = some (predict p x) := by
  have h : load (save p) = some p := by
    simp [save, load, takeSegment_append]
  exact ⟨h, fun x => by simp [h]⟩

end SafetyRisk
